import Mathlib

/-!
Verification of the request-construction / response-interpretation engine of the
sageintacct-sdk-py repository (`sageintacctsdk/apis/api_base.py`).

The decoded XML response bodies (produced by `xmltodict.parse` followed by a
JSON round-trip) are modelled by the inductive type `JVal`: all leaves are
strings or `None`, interior nodes are dicts (association lists preserving
insertion order, as Python dicts do) or lists.  Request envelopes built by the
engine additionally contain the Python literals `False`, `3.0` and ints, hence
the `bool`, `float10` and `int` constructors.

Python runtime exceptions that escape the engine (KeyError, AttributeError,
TypeError, IndexError, UnboundLocalError, ValueError, StopIteration) are
modelled as `Failure.py` with the exception's name; the SDK's own exception
taxonomy (declared in `sageintacctsdk/exceptions.py`, imported by
`api_base.py`) is `Failure.sdk` with an `ErrKind`, the message string and the
diagnostic payload passed to the exception constructor.
-/

namespace SageIntacct

/-- A decoded nested mapping/sequence value (the image of XML under
`xmltodict.parse` + `json` round-trip), extended with the Python literals that
occur in outbound request envelopes.  `float10 n` stands for the Python float
`n / 10` (only `3.0`, i.e. `float10 30`, occurs, as the `dtdversion`). -/
inductive JVal where
  | null : JVal
  | bool : Bool → JVal
  | int : Int → JVal
  | float10 : Int → JVal
  | str : String → JVal
  | arr : List JVal → JVal
  | obj : List (String × JVal) → JVal

/-- Python dict lookup on an insertion-ordered association list. -/
def jLookup (key : String) : List (String × JVal) → Option JVal
  | [] => none
  | (k, v) :: rest => if key = k then some v else jLookup key rest

/-- Python dict assignment `d[key] = v`: replaces in place when the key is
present (keeping its position), appends otherwise. -/
def assocSet (key : String) (v : JVal) : List (String × JVal) → List (String × JVal)
  | [] => [(key, v)]
  | (k, w) :: rest => if key = k then (key, v) :: rest else (k, w) :: assocSet key v rest

/-- The SDK's exception taxonomy, as imported by `api_base.py` from
`sageintacctsdk.exceptions`.  `genericSdkError` is the base class
`SageIntacctSDKError` (the catch-all variant the spec calls `GenericSdkError`). -/
inductive ErrKind where
  | genericSdkError
  | invalidTokenError
  | expiredTokenError
  | noPrivilegeError
  | notFoundItemError
  | wrongParamsError
  | internalServerError
deriving DecidableEq

/-- How a call through the engine can terminate abnormally: a raised SDK
taxonomy exception (with its message and the diagnostic payload handed to the
constructor), or a Python runtime exception escaping the engine, identified by
its class name. -/
inductive Failure where
  | sdk : ErrKind → String → JVal → Failure
  | py : String → Failure

/-- Python subscript `j[key]`: KeyError on a dict without the key, TypeError on
any non-dict. -/
def getKey (j : JVal) (key : String) : Except Failure JVal :=
  match j with
  | .obj fields =>
      match jLookup key fields with
      | some v => .ok v
      | none => .error (.py "KeyError")
  | _ => .error (.py "TypeError")

/-- Python dict item assignment `j[key] = v` (TypeError on non-dicts). -/
def setKey (j : JVal) (key : String) (v : JVal) : Except Failure JVal :=
  match j with
  | .obj fields => .ok (.obj (assocSet key v fields))
  | _ => .error (.py "TypeError")

/-- Python truthiness of a decoded value. -/
def truthy : JVal → Bool
  | .null => false
  | .bool b => b
  | .int n => n != 0
  | .float10 n => n != 0
  | .str s => s != ""
  | .arr l => !l.isEmpty
  | .obj l => !l.isEmpty

/-- Python equality test `j == s` between a decoded value and a string literal:
true exactly when `j` is that string. -/
def jEqStr (j : JVal) (s : String) : Bool :=
  match j with
  | .str t => t == s
  | _ => false

/-- Value of a hexadecimal digit character, as accepted by percent-decoding. -/
def hexVal (c : Char) : Option Nat :=
  if 48 ≤ c.toNat ∧ c.toNat ≤ 57 then some (c.toNat - 48)
  else if 65 ≤ c.toNat ∧ c.toNat ≤ 70 then some (c.toNat - 55)
  else if 97 ≤ c.toNat ∧ c.toNat ≤ 102 then some (c.toNat - 87)
  else none

/-- `urllib.parse.unquote`: percent-decoding.  A `%` followed by two hex digits
becomes the denoted byte; malformed escapes are passed through unchanged, as in
Python.  (Multi-byte UTF-8 sequences are decoded bytewise here; identical to
Python on ASCII data, which is all the gateway's Support IDs contain.) -/
def pctDecode : List Char → List Char
  | [] => []
  | [c] => [c]
  | [c, d] => c :: pctDecode [d]
  | c :: d :: e :: rest =>
      if c = '%' then
        match hexVal d, hexVal e with
        | some hi, some lo => Char.ofNat (16 * hi + lo) :: pctDecode rest
        | _, _ => c :: pctDecode (d :: e :: rest)
      else c :: pctDecode (d :: e :: rest)

/-- The literal part of the regex `re.search('Support ID: (.*)]', message)`. -/
def supportIdPat : List Char := "Support ID: ".data

/-- The greedy capture of `(.*)]` at the current position: `.*` cannot cross a
newline, and greediness makes the capture run to the last `]` on the line;
`none` when the line has no `]` (the regex then fails at this position). -/
def greedyCapture (cs : List Char) : Option (List Char) :=
  let line := cs.takeWhile (fun c => c != '\n')
  match line.reverse.dropWhile (fun c => c != ']') with
  | [] => none
  | _ :: before => some before.reverse

/-- `re.search('Support ID: (.*)]', message)`: leftmost position where the
whole pattern matches, returning group 1.  At each candidate position the
literal must match and a `]` must follow on the same line; otherwise the
search moves one character to the right. -/
def supportIdSearch : List Char → Option (List Char)
  | [] => none
  | c :: rest =>
      if supportIdPat.isPrefixOf (c :: rest) then
        match greedyCapture ((c :: rest).drop supportIdPat.length) with
        | some cap => some cap
        | none => supportIdSearch rest
      else supportIdSearch rest

/-- Worker for `replaceSub`: one fuel unit per character position examined.
Any fuel of at least the string's length gives the replace-all result. -/
def replaceSubAux (pat repl : List Char) : Nat → List Char → List Char
  | _, [] => []
  | 0, s => s
  | fuel + 1, c :: rest =>
      if pat ≠ [] ∧ pat.isPrefixOf (c :: rest) then
        repl ++ replaceSubAux pat repl fuel (rest.drop (pat.length - 1))
      else
        c :: replaceSubAux pat repl fuel rest

/-- Python `str.replace`: replaces every non-overlapping occurrence of `pat`,
scanning left to right.  (`api_base.py` only calls it with a nonempty `pat`,
guarded by `if support_id.group(1):`; for an empty `pat` this model returns the
string unchanged.) -/
def replaceSub (s pat repl : List Char) : List Char :=
  replaceSubAux pat repl s.length s

/-- `ApiBase.__support_id_msg` (`api_base.py` lines 102-119): inspects
`errormessages['error']`.  Returns `some (isList, error)` where `isList`
records the `'type'` tag and `error` the selected error object; `none` models
the Python function returning the empty dict `{}` when `errormessages['error']`
is neither a list nor a dict. -/
def supportIdMsg (errormessages : JVal) : Except Failure (Option (Bool × JVal)) := do
  let e ← getKey errormessages "error"
  match e with
  | .arr [] => .error (.py "IndexError")
  | .arr (x :: _) => pure (some (true, x))
  | .obj fields => pure (some (false, .obj fields))
  | _ => pure none

/-- `ApiBase.__decode_support_id` (`api_base.py` lines 121-146): percent-decode
the Support ID captured from the first error's `description2`, splice it back,
normalize `errormessages['error']` to a list, and overwrite the first
element's `description2`.

Python runtime failures faithfully modelled: `KeyError` when
`__support_id_msg` returned `{}` (line 131 `support_id_msg['type']`);
`AttributeError` when `re.search` found no match (line 136
`support_id.group(1)` on `None`); `TypeError` when `description2` is not a
string; `UnboundLocalError` when the guard on line 133 is false, leaving
`message` unassigned at line 144. -/
def decodeSupportId (errormessages : JVal) : Except Failure JVal := do
  let sim ← supportIdMsg errormessages
  match sim with
  | none => .error (.py "KeyError")
  | some (isList, error) => do
      let message ←
        if truthy error then do
          let d2 ← getKey error "description2"
          if truthy d2 then
            match d2 with
            | .str m =>
                match supportIdSearch m.data with
                | none => .error (.py "AttributeError")
                | some cap =>
                    if cap.isEmpty then pure (some m)
                    else pure (some (String.mk (replaceSub m.data cap (pctDecode cap))))
            | _ => .error (.py "TypeError")
          else pure (none : Option String)
        else pure (none : Option String)
      match message with
      | none => .error (.py "UnboundLocalError")
      | some m => do
          let e ← getKey errormessages "error"
          let lst ←
            if isList then
              match e with
              | .arr l => pure l
              | _ => .error (.py "TypeError")
            else pure [e]
          match lst with
          | [] => .error (.py "IndexError")
          | e0 :: rest => do
              let e0 ← setKey e0 "description2" (if m != "" then JVal.str m else JVal.null)
              setKey errormessages "error" (.arr (e0 :: rest))

mutual

/-- Python `repr` of a decoded value (used by `str.format` on non-strings).
Quotes are written with their escape codes. -/
def pyRepr : JVal → String
  | .null => "None"
  | .bool b => if b then "True" else "False"
  | .int n => toString n
  | .float10 n => toString (n.tdiv 10) ++ "." ++ toString (n.tmod 10)
  | .str s => "\x27" ++ s ++ "\x27"
  | .arr l => "[" ++ pyReprSeq l ++ "]"
  | .obj l => "\x7b" ++ pyReprFields l ++ "\x7d"

/-- Comma-separated `repr` of list elements. -/
def pyReprSeq : List JVal → String
  | [] => ""
  | [x] => pyRepr x
  | x :: y :: rest => pyRepr x ++ ", " ++ pyReprSeq (y :: rest)

/-- Comma-separated `repr` of dict items. -/
def pyReprFields : List (String × JVal) → String
  | [] => ""
  | [(k, v)] => "\x27" ++ k ++ "\x27: " ++ pyRepr v
  | (k, v) :: y :: rest => "\x27" ++ k ++ "\x27: " ++ pyRepr v ++ ", " ++ pyReprFields (y :: rest)

end

/-- Python `str()` / `'{0}'.format(...)` of a decoded value. -/
def pyStr : JVal → String
  | .str s => s
  | v => pyRepr v

/-- Digit-string parsing for Python `int(...)`: nonempty, all decimal digits. -/
def parseDigits (cs : List Char) : Except Failure Int :=
  if cs ≠ [] ∧ cs.all (fun c => c.isDigit) then
    .ok (Int.ofNat (cs.foldl (fun acc c => acc * 10 + (c.toNat - 48)) 0))
  else .error (.py "ValueError")

/-- Python `int(...)` applied to a decoded value: parses strings (optional
surrounding spaces and sign), passes ints through, converts bools, truncates
floats; `TypeError` on `None` and containers. -/
def pyInt : JVal → Except Failure Int
  | .str s =>
      let cs := ((s.data.dropWhile (fun c => c == ' ')).reverse.dropWhile
        (fun c => c == ' ')).reverse
      match cs with
      | [] => .error (.py "ValueError")
      | c :: rest =>
          if c = '-' then do
            let n ← parseDigits rest
            pure (-n)
          else if c = '+' then parseDigits rest
          else parseDigits (c :: rest)
  | .int n => .ok n
  | .bool b => .ok (if b then 1 else 0)
  | .float10 n => .ok (n.tdiv 10)
  | _ => .error (.py "TypeError")

/-- The permission marker scanned for at `api_base.py` line 187. -/
def permMarker : String := "You do not have permission for API"

/-- Substring test on character lists (Python `needle in haystack` for
strings). -/
def listInfix (needle : List Char) : List Char → Bool
  | [] => needle.isEmpty
  | c :: rest => needle.isPrefixOf (c :: rest) || listInfix needle rest

/-- Python `needle in hay` for the values `description2` can hold: substring
test on strings, element membership on lists, key membership on dicts,
`TypeError` otherwise. -/
def pyContains (needle : String) (hay : JVal) : Except Failure Bool :=
  match hay with
  | .str s => pure (listInfix needle.data s.data)
  | .arr l => pure (l.any (fun e => jEqStr e needle))
  | .obj fields => pure (fields.any (fun kv => kv.1 == needle))
  | _ => .error (.py "TypeError")

/-- The loop body of `api_base.py` lines 186-188 over a list of error entries:
stops with `true` at the first entry whose truthy `description2` contains the
permission marker.  `KeyError`/`TypeError` faithfully escape for entries
without a `description2`. -/
def permScanEntries : List JVal → Except Failure Bool
  | [] => pure false
  | e :: rest => do
      let d2 ← getKey e "description2"
      if truthy d2 then do
        let c ← pyContains permMarker d2
        if c then pure true else permScanEntries rest
      else permScanEntries rest

/-- `for error in exception_msg['error']`: iterating the normalized error
value.  After `__decode_support_id` this is always a list; iterating a string
or dict yields values whose `['description2']` subscript raises `TypeError`,
and non-iterables raise `TypeError` directly. -/
def permScan (errs : JVal) : Except Failure Bool :=
  match errs with
  | .arr l => permScanEntries l
  | .str s => if s = "" then pure false else .error (.py "TypeError")
  | .obj fields => if fields.isEmpty then pure false else .error (.py "TypeError")
  | _ => .error (.py "TypeError")

/-- `ApiBase.__post_request` (`api_base.py` lines 148-210) from the transport
result onward: takes the HTTP status code and the decoded response body and
returns `operation` on success or the raised exception.  The XML codec and the
HTTP call itself are external collaborators; their output is this function's
input.

Mirrors the source's control flow exactly: under status 200 the `'success'`
test (which binds `api_response`) runs before the `'failure'` test, a control
status that is neither leaves `api_response` unassigned (`UnboundLocalError`),
and a `result` status that is neither `'success'` nor `'failure'` falls
through the non-200 ladder to the final generic raise on line 210. -/
def postRequest (statusCode : Nat) (parsed : JVal) : Except Failure JVal :=
  if statusCode = 200 then do
    let resp ← getKey parsed "response"
    let ctl ← getKey resp "control"
    let cst ← getKey ctl "status"
    let apiResponse ←
      if jEqStr cst "success" then do
        let op ← getKey resp "operation"
        pure (some op)
      else pure (none : Option JVal)
    if jEqStr cst "failure" then do
      let em ← getKey resp "errormessage"
      let ex ← decodeSupportId em
      .error (.sdk .wrongParamsError "Some of the parameters are wrong" ex)
    else
      match apiResponse with
      | none => .error (.py "UnboundLocalError")
      | some api => do
          let auth ← getKey api "authentication"
          let ast ← getKey auth "status"
          if jEqStr ast "failure" then do
            let em ← getKey api "errormessage"
            .error (.sdk .invalidTokenError "Invalid token / Incorrect credentials" em)
          else do
            let res ← getKey api "result"
            let rst ← getKey res "status"
            if jEqStr rst "success" then pure api
            else if jEqStr rst "failure" then do
              let em ← getKey res "errormessage"
              let ex ← decodeSupportId em
              let errs ← getKey ex "error"
              let found ← permScan errs
              if found then
                .error (.sdk .invalidTokenError "The user has insufficient privilege" ex)
              else do
                let fn ← getKey res "function"
                .error (.sdk .wrongParamsError ("Error during " ++ pyStr fn) ex)
            else
              .error (.sdk .genericSdkError ("Error: " ++ pyStr parsed) parsed)
  else if statusCode = 400 then
    .error (.sdk .wrongParamsError "Some of the parameters are wrong" parsed)
  else if statusCode = 401 then
    .error (.sdk .invalidTokenError "Invalid token / Incorrect credentials" parsed)
  else if statusCode = 403 then
    .error (.sdk .noPrivilegeError "Forbidden, the user has insufficient privilege" parsed)
  else if statusCode = 404 then
    .error (.sdk .notFoundItemError "Not found item with ID" parsed)
  else if statusCode = 498 then
    .error (.sdk .expiredTokenError "Expired token, try to refresh it" parsed)
  else if statusCode = 500 then
    .error (.sdk .internalServerError "Internal server error" parsed)
  else
    .error (.sdk .genericSdkError ("Error: " ++ pyStr parsed) parsed)

/-- The engine's mutable session state (`ApiBase.__init__`).  Credential and
session fields hold Python values (`None` until set); `dimension` and
`post_legacy_method` are the constructor's optional strings. -/
structure ApiBase where
  sender_id : JVal := .null
  sender_password : JVal := .null
  session_id : JVal := .null
  api_url : JVal := .str "https://api.intacct.com/ia/xml/xmlgw.phtml"
  dimension : Option String := none
  pagesize : Int := 2000
  post_legacy_method : Option String := none

/-- `ApiBase.__init__(dimension, pagesize, post_legacy_method)`. -/
def initApiBase (dimension : Option String) (pagesize : Int)
    (post_legacy_method : Option String) : ApiBase :=
  { dimension := dimension, pagesize := pagesize, post_legacy_method := post_legacy_method }

/-- `self.__dimension` as it appears inside payload dictionaries. -/
def dimJ (a : ApiBase) : JVal :=
  match a.dimension with
  | some d => .str d
  | none => .null

/-- The transport collaborator (`requests.post` + `xmltodict.parse`): from the
target URL and the request envelope to the HTTP status code and the decoded
response body. -/
def Transport : Type := JVal → JVal → Nat × JVal

/-- The `control` element shared by every outbound envelope (`api_base.py`
lines 56-63 and 227-234).  `ts` stands in for `datetime.datetime.now()`. -/
def requestControl (a : ApiBase) (ts : String) : JVal :=
  .obj [("senderid", a.sender_id), ("password", a.sender_password),
        ("controlid", .str ts), ("uniqueid", .bool false),
        ("dtdversion", .float10 30), ("includewhitespace", .bool false)]

/-- The envelope built by `format_and_send_request` (lines 225-247): session
authentication plus one verb.  `uuidv` stands in for `str(uuid.uuid4())`. -/
def buildRequestBody (a : ApiBase) (ts uuidv key : String) (payload : JVal) : JVal :=
  .obj [("request", .obj [
    ("control", requestControl a ts),
    ("operation", .obj [
      ("authentication", .obj [("sessionid", a.session_id)]),
      ("content", .obj [
        ("function", .obj [("@controlid", .str uuidv), (key, payload)])])])])]

/-- The URL and envelope a `format_and_send_request` call hands to the
transport. -/
def issuedRequest (a : ApiBase) (ts uuidv key : String) (payload : JVal) : JVal × JVal :=
  (a.api_url, buildRequestBody a ts uuidv key payload)

/-- `next(iter(data))` on the payload dict plus the corresponding value
(`api_base.py` line 222 and 242). -/
def nextIterKey : JVal → Except Failure (String × JVal)
  | .obj ((k, v) :: _) => .ok (k, v)
  | .obj [] => .error (.py "StopIteration")
  | _ => .error (.py "TypeError")

/-- `ApiBase.format_and_send_request` (lines 212-250): build the envelope,
send it, classify the response, return `response['result']`. -/
def format_and_send_request (a : ApiBase) (transport : Transport) (ts uuidv : String)
    (data : JVal) : Except Failure JVal := do
  let (key, v) ← nextIterKey data
  let (url, body) := issuedRequest a ts uuidv key v
  let (code, parsed) := transport url body
  let response ← postRequest code parsed
  getKey response "result"

/-- The login envelope built by `get_session_id` (lines 53-80). -/
def loginRequestBody (a : ApiBase) (ts uuidv userId companyId userPassword : String) : JVal :=
  .obj [("request", .obj [
    ("control", requestControl a ts),
    ("operation", .obj [
      ("authentication", .obj [
        ("login", .obj [
          ("userid", .str userId), ("companyid", .str companyId),
          ("password", .str userPassword)])]),
      ("content", .obj [
        ("function", .obj [("@controlid", .str uuidv), ("getAPISession", .null)])])])])]

/-- `ApiBase.get_session_id` (lines 46-92): send the login envelope through
`__post_request`; on `authentication.status == 'success'` store the
session-specific endpoint and session id into the state and return the session
id (the updated state is returned alongside, since the Python method mutates
`self`); otherwise raise `SageIntacctSDKError` whose message embeds the
response's `errormessage` (the payload slot carries the same value; the Python
constructor receives it only inside the formatted message). -/
def get_session_id (a : ApiBase) (transport : Transport)
    (ts uuidv userId companyId userPassword : String) :
    Except Failure (ApiBase × JVal) := do
  let body := loginRequestBody a ts uuidv userId companyId userPassword
  let (code, parsed) := transport a.api_url body
  let response ← postRequest code parsed
  let auth ← getKey response "authentication"
  let ast ← getKey auth "status"
  if jEqStr ast "success" then do
    let res ← getKey response "result"
    let dat ← getKey res "data"
    let api ← getKey dat "api"
    let endpoint ← getKey api "endpoint"
    let sid ← getKey api "sessionid"
    pure ({ a with api_url := endpoint, session_id := sid }, sid)
  else do
    let em ← getKey response "errormessage"
    .error (.sdk .genericSdkError ("Error: " ++ pyStr em) em)

/-- `ApiBase.set_session_id` (lines 94-100). -/
def set_session_id (a : ApiBase) (session_id : JVal) : ApiBase :=
  { a with session_id := session_id }

/-- The fixed legacy dimension set of `ApiBase.post` (line 253). -/
def legacyDimensions : List String := ["CCTRANSACTION", "EEXPENSES", "EPPAYMENT"]

/-- `ApiBase.__construct_post_payload` (lines 258-265): wrap `data` under a
`create` verb keyed by the dimension.  A `None` dimension would put `None`
into the XML tag position, which the XML codec rejects (`TypeError`). -/
def construct_post_payload (a : ApiBase) (transport : Transport) (ts uuidv : String)
    (data : JVal) : Except Failure JVal :=
  match a.dimension with
  | some d => format_and_send_request a transport ts uuidv (.obj [("create", .obj [(d, data)])])
  | none => .error (.py "TypeError")

/-- `ApiBase.__construct_post_legacy_payload` (lines 267-272): wrap `data`
under the configured legacy verb name. -/
def construct_post_legacy_payload (a : ApiBase) (transport : Transport) (ts uuidv : String)
    (data : JVal) : Except Failure JVal :=
  match a.post_legacy_method with
  | some m => format_and_send_request a transport ts uuidv (.obj [(m, data)])
  | none => .error (.py "TypeError")

/-- `ApiBase.post` (lines 252-256). -/
def post (a : ApiBase) (transport : Transport) (ts uuidv : String)
    (data : JVal) : Except Failure JVal :=
  match a.dimension with
  | some d =>
      if d ∈ legacyDimensions then construct_post_legacy_payload a transport ts uuidv data
      else construct_post_payload a transport ts uuidv data
  | none => construct_post_payload a transport ts uuidv data

/-- The count query payload of `ApiBase.count` (lines 275-283). -/
def countQueryBody (a : ApiBase) : JVal :=
  .obj [("query", .obj [
    ("object", dimJ a),
    ("select", .obj [("field", .str "RECORDNO")]),
    ("pagesize", .str "1")])]

/-- `ApiBase.count` (lines 274-286): issue the `RECORDNO`/pagesize-1 query and
return `int(response['data']['@totalcount'])`. -/
def count (a : ApiBase) (transport : Transport) (ts uuidv : String) : Except Failure Int := do
  let response ← format_and_send_request a transport ts uuidv (countQueryBody a)
  let dat ← getKey response "data"
  let tc ← getKey dat "@totalcount"
  pyInt tc

/-- `ApiBase.get` (lines 288-307): `readByQuery` with a raw-interpolated
equality filter and up to 1000 rows, returning the `data` node. -/
def get (a : ApiBase) (transport : Transport) (ts uuidv : String)
    (field value : String) (fields : Option (List String)) : Except Failure JVal := do
  let fieldsStr :=
    match fields with
    | some (f :: fs) => String.intercalate "," (f :: fs)
    | _ => "*"
  let data : JVal := .obj [("readByQuery", .obj [
    ("object", dimJ a),
    ("fields", .str fieldsStr),
    ("query", .str (field ++ " = \x27" ++ value ++ "\x27")),
    ("pagesize", .str "1000")])]
  let r ← format_and_send_request a transport ts uuidv data
  getKey r "data"

/-- `fields if fields else dimensions_fields_mapping[self.__dimension]`
(line 324), evaluated on every loop iteration.  The static table
`dimensions_fields_mapping` lives in `apis/constants.py`, which is not part of
the sources; it is passed in abstractly as `dfm` (a lookup raising `KeyError`
on absent dimensions), per the spec's "static mapping table from dimension
name to its default list of returned fields". -/
def selectFieldValue (a : ApiBase) (dfm : String → Option JVal)
    (fields : Option (List String)) : Except Failure JVal :=
  match fields with
  | some (f :: fs) => pure (.arr ((f :: fs).map JVal.str))
  | _ =>
      match a.dimension with
      | some d =>
          match dfm d with
          | some v => pure v
          | none => .error (.py "KeyError")
      | none => .error (.py "KeyError")

/-- One page's `query` payload in `ApiBase.get_all` (lines 320-337): select,
pagesize and offset, plus an `equalto` filter appended exactly when both
`field` and `value` are truthy. -/
def pageQueryBody (a : ApiBase) (selectField : JVal) (field value : Option String)
    (offset : Int) : JVal :=
  let base := [("object", dimJ a),
               ("select", JVal.obj [("field", selectField)]),
               ("pagesize", JVal.int a.pagesize),
               ("offset", JVal.int offset)]
  let q :=
    match field, value with
    | some f, some v =>
        if f != "" && v != "" then
          base ++ [("filter", JVal.obj [("equalto", JVal.obj [
            ("field", JVal.str f), ("value", JVal.str v)])])]
        else base
    | _, _ => base
  .obj [("query", .obj q)]

/-- Python list extension semantics for `complete_data.extend(paginated_data)`
(line 340): lists extend elementwise, strings by their characters, dicts by
their keys; non-iterables raise `TypeError`. -/
def pyExtendList : JVal → Except Failure (List JVal)
  | .arr l => pure l
  | .str s => pure (s.data.map (fun c => .str (String.mk [c])))
  | .obj fields => pure (fields.map (fun kv => JVal.str kv.1))
  | _ => .error (.py "TypeError")

/-- The value list of Python `range(start, stop, step)` for a nonzero step. -/
def pyRangeList (start stop step : Int) : List Int :=
  if 0 < step then
    (List.range (((stop - start + step - 1) / step).toNat)).map
      (fun i : Nat => start + step * (i : Int))
  else if step < 0 then
    (List.range (((start - stop + (-step) - 1) / (-step)).toNat)).map
      (fun i : Nat => start + step * (i : Int))
  else []

/-- Python `range(start, stop, step)`: `ValueError` when the step is zero. -/
def pyRange3 (start stop step : Int) : Except Failure (List Int) :=
  if step = 0 then .error (.py "ValueError") else .ok (pyRangeList start stop step)

/-- The `for offset in range(0, count, pagesize)` loop of `ApiBase.get_all`
(lines 319-340), carrying the `complete_data` accumulator. -/
def get_all_loop (a : ApiBase) (transport : Transport) (ts uuidv : String)
    (dfm : String → Option JVal) (field value : Option String)
    (fields : Option (List String)) :
    List Int → List JVal → Except Failure (List JVal)
  | [], acc => pure acc
  | offset :: rest, acc => do
      let sel ← selectFieldValue a dfm fields
      let data := pageQueryBody a sel field value offset
      let r ← format_and_send_request a transport ts uuidv data
      let dat ← getKey r "data"
      let pd ←
        match a.dimension with
        | some d => getKey dat d
        | none => .error (.py "KeyError")
      let l ← pyExtendList pd
      get_all_loop a transport ts uuidv dfm field value fields rest (acc ++ l)

/-- `ApiBase.get_all` (lines 309-342): size the pagination with `count()`,
then fetch `range(0, count, pagesize)` pages and concatenate their record
lists in request order. -/
def get_all (a : ApiBase) (transport : Transport) (ts uuidv : String)
    (dfm : String → Option JVal) (field value : Option String)
    (fields : Option (List String)) : Except Failure (List JVal) := do
  let c ← count a transport ts uuidv
  let offsets ← pyRange3 0 c a.pagesize
  get_all_loop a transport ts uuidv dfm field value fields offsets []

/-! ### Test fixtures

Concrete gateway behaviours used to state the end-to-end claims: a stable
remote record set served page by page, and canned login responses. -/

/-- The decimal digit character for `m` (callers pass `m < 10`). -/
def digitChar (m : Nat) : Char :=
  match m with
  | 0 => '0'
  | 1 => '1'
  | 2 => '2'
  | 3 => '3'
  | 4 => '4'
  | 5 => '5'
  | 6 => '6'
  | 7 => '7'
  | 8 => '8'
  | _ => '9'

/-- Decimal digits of a number, most significant first, prepended to `acc`;
fuel-driven (any fuel of at least the number itself is enough). -/
def natDecimalAux : Nat → Nat → List Char → List Char
  | _, 0, acc => acc
  | 0, _ + 1, acc => acc
  | fuel + 1, n + 1, acc =>
      natDecimalAux fuel ((n + 1) / 10) (digitChar ((n + 1) % 10) :: acc)

/-- Decimal rendering of a natural number (how the gateway serializes
`@totalcount`). -/
def natDecimal (n : Nat) : List Char :=
  if n = 0 then ['0'] else natDecimalAux n n []

/-- Optional lookup of a key in a decoded value (fixture plumbing only). -/
def jGetOpt (j : JVal) (key : String) : Option JVal :=
  match j with
  | .obj fields => jLookup key fields
  | _ => none

/-- A fully successful response envelope carrying `result.data`. -/
def okEnvelope (resultData : JVal) : JVal :=
  .obj [("response", .obj [
    ("control", .obj [("status", .str "success")]),
    ("operation", .obj [
      ("authentication", .obj [("status", .str "success")]),
      ("result", .obj [("status", .str "success"), ("data", resultData)])])])]

/-- A gateway serving a stable record set for dimension `d`: a query carrying
an integer `offset` and `pagesize` is answered with that slice of `recs`
(decoded as a list, as `force_list={dimension}` guarantees), any other query
with the total count. -/
def stableServer (d : String) (recs : List JVal) : Transport := fun _url body =>
  let q :=
    (jGetOpt body "request").bind fun rq =>
    (jGetOpt rq "operation").bind fun op =>
    (jGetOpt op "content").bind fun ct =>
    (jGetOpt ct "function").bind fun fn =>
    jGetOpt fn "query"
  match q with
  | some qv =>
      match jGetOpt qv "offset", jGetOpt qv "pagesize" with
      | some (.int o), some (.int p) =>
          (200, okEnvelope (.obj [(d, .arr ((recs.drop o.toNat).take p.toNat))]))
      | _, _ =>
          (200, okEnvelope (.obj [("@totalcount", .str (String.mk (natDecimal recs.length)))]))
  | none =>
      (200, okEnvelope (.obj [("@totalcount", .str (String.mk (natDecimal recs.length)))]))

/-- A successful login response: `result.data.api` carries the
session-specific endpoint and session id. -/
def loginOkResponse (ep sid : String) : JVal :=
  okEnvelope (.obj [("api", .obj [("endpoint", .str ep), ("sessionid", .str sid)])])

/-- A login response whose `operation.authentication.status` is `'failure'`,
with the gateway's `errormessage` beside it. -/
def loginAuthFailResponse (em : JVal) : JVal :=
  .obj [("response", .obj [
    ("control", .obj [("status", .str "success")]),
    ("operation", .obj [
      ("authentication", .obj [("status", .str "failure")]),
      ("errormessage", em)])])]

/-- A login response whose authentication status is some third value `s`
(neither `'success'` nor `'failure'`) while the result reports success, with
an `errormessage` beside them. -/
def loginOddStatusResponse (s : String) (em : JVal) : JVal :=
  .obj [("response", .obj [
    ("control", .obj [("status", .str "success")]),
    ("operation", .obj [
      ("authentication", .obj [("status", .str s)]),
      ("result", .obj [("status", .str "success"), ("data", .null)]),
      ("errormessage", em)])])]

/-- A 200 response with envelope-level failure whose single error message has
no `Support ID: [...]` fragment. -/
def controlFailureNoSupportId : JVal :=
  .obj [("response", .obj [
    ("control", .obj [("status", .str "failure")]),
    ("errormessage", .obj [("error", .obj [("description2", .str "Oops")])])])]

/-- A 200 response with envelope-level failure carrying `errormessage` `em`. -/
def controlFailureEnvelope (em : JVal) : JVal :=
  .obj [("response", .obj [
    ("control", .obj [("status", .str "failure")]),
    ("errormessage", em)])]

/-- A 200 response with envelope-level failure whose single error object lacks
a `description2` field altogether. -/
def c4CounterexampleBody : JVal :=
  controlFailureEnvelope (.obj [("error", .obj [("errorno", .str "XL03000006")])])

/-- A 200 response with control and authentication success whose
`operation.result` reports failure, names the failing function `fn` and
carries `errormessage` `em`. -/
def resultFailureEnvelope (fn em : JVal) : JVal :=
  .obj [("response", .obj [
    ("control", .obj [("status", .str "success")]),
    ("operation", .obj [
      ("authentication", .obj [("status", .str "success")]),
      ("result", .obj [
        ("status", .str "failure"), ("function", fn), ("errormessage", em)])])])]

/-- A result-failure response whose error message contains the
insufficient-permission marker but no `Support ID: [...]` fragment. -/
def c5CounterexampleBody : JVal :=
  resultFailureEnvelope (.str "readByQuery")
    (.obj [("error", .obj [("description2", .str "You do not have permission for API")])])

/-- The elements after the first of a value's `error` list (observation helper
for the frame claim about Support-ID decoding). -/
def tailOfErrors (j : JVal) : Option (List JVal) :=
  match jGetOpt j "error" with
  | some (.arr (_ :: t)) => some t
  | _ => none

/-- A gateway errormessage holding a single error dict with a percent-encoded
Support ID. -/
def c4WitnessErrormessage : JVal :=
  .obj [("error", .obj [("description2", .str "Payload error. Support ID: [kxi8%2Bab]")])]

/-- The value `__decode_support_id` produces for `c4WitnessErrormessage`:
the error normalized to a one-element list, the Support ID percent-decoded. -/
def c4WitnessDecoded : JVal :=
  .obj [("error", .arr [.obj [("description2", .str "Payload error. Support ID: [kxi8+ab]")]])]

/-- The second error of a two-error gateway message, holding its own
percent-encoded Support ID. -/
def c10SecondError : JVal :=
  .obj [("description2", .str "Another failure. Support ID: [xyz%2Babc]")]

/-- A gateway errormessage dict with a two-element error list. -/
def c10Fields : List (String × JVal) :=
  [("error", .arr [.obj [("description2", .str "First failure. Support ID: [abc%2Bdef]")],
    c10SecondError])]

/-- The value `__decode_support_id` produces for `.obj c10Fields`: the first
error's Support ID decoded, the second untouched. -/
def c10Decoded : JVal :=
  .obj [("error", .arr [.obj [("description2", .str "First failure. Support ID: [abc+def]")],
    c10SecondError])]

/-- A well-shaped normalized error entry: a dict whose `description2` is a
string or `None` (the shapes the XML decode can produce there). -/
def entryOk (e : JVal) : Prop :=
  ∃ d2, jGetOpt e "description2" = some d2 ∧ (d2 = .null ∨ ∃ s, d2 = .str s)

/-- Whether an error entry's `description2` contains the
insufficient-permission marker. -/
def hasPermMarker (e : JVal) : Bool :=
  match jGetOpt e "description2" with
  | some (.str s) => listInfix permMarker.data s.data
  | _ => false

/-- The record set and page size fixture engine for the pagination claim
(post-login state targeting dimension `d`). -/
def pagingApi (d : String) (p : Nat) : ApiBase :=
  { dimension := some d, pagesize := (p : Int), session_id := .str "SID" }

/-- A concrete one-entry default-fields table for the pagination witness. -/
def c6Dfm : String → Option JVal :=
  fun x => if x = "ARINVOICE" then some (.arr [.str "RECORDNO"]) else none

/-! ### Shared lemmas -/

/-- Looking up a key right after `assocSet` yields the stored value. -/
lemma jLookup_assocSet_self (k : String) (v : JVal) (l : List (String × JVal)) :
    jLookup k (assocSet k v l) = some v := by
  induction l with
  | nil => simp [assocSet, jLookup]
  | cons kv rest ih =>
      obtain ⟨k0, v0⟩ := kv
      by_cases h : k = k0
      · simp [assocSet, jLookup, h]
      · simp [assocSet, jLookup, h, ih]

/-- Whenever `__decode_support_id` returns normally, its input was a dict, the
result is that dict with the `error` entry replaced by a nonempty list, and
that list's tail is exactly the tail of the original error list (or empty when
the original error was a single dict). -/
lemma decodeSupportId_ok_shape (em ex : JVal) (h : decodeSupportId em = .ok ex) :
    ∃ fields newHead rest, em = .obj fields ∧
      ex = .obj (assocSet "error" (.arr (newHead :: rest)) fields) ∧
      ((∃ origHead, jLookup "error" fields = some (.arr (origHead :: rest))) ∨
       (∃ origFields, jLookup "error" fields = some (.obj origFields) ∧ rest = [])) := by
  cases em with
  | obj fields =>
      simp only [decodeSupportId, supportIdMsg, getKey, bind, Except.bind] at h
      cases hjl : jLookup "error" fields with
      | none => rw [hjl] at h; simp at h
      | some e =>
          rw [hjl] at h
          cases e with
          | arr l =>
              cases l with
              | nil => simp at h
              | cons x xs =>
                  simp only [pure, Except.pure, Bool.false_eq_true, eq_self_iff_true,
                    if_true, if_false] at h
                  split at h
                  · split at h
                    · simp at h
                    · split at h
                      · split at h
                        · split at h
                          · simp at h
                          · split at h
                            · split at h
                              · simp at h
                              · rename_i v heq
                                simp only [setKey] at h
                                simp at h
                                exact ⟨fields, v, xs, rfl, h.symm, Or.inl ⟨x, hjl⟩⟩
                            · split at h
                              · simp at h
                              · rename_i v heq
                                simp only [setKey] at h
                                simp at h
                                exact ⟨fields, v, xs, rfl, h.symm, Or.inl ⟨x, hjl⟩⟩
                        · simp at h
                      · simp at h
                  · simp at h
          | obj ofs =>
              simp only [pure, Except.pure, Bool.false_eq_true, eq_self_iff_true,
                if_true, if_false] at h
              split at h
              · split at h
                · simp at h
                · split at h
                  · split at h
                    · split at h
                      · simp at h
                      · split at h
                        · split at h
                          · simp at h
                          · rename_i v heq
                            simp only [setKey] at h
                            simp at h
                            exact ⟨fields, v, [], rfl, h.symm, Or.inr ⟨ofs, hjl, rfl⟩⟩
                        · split at h
                          · simp at h
                          · rename_i v heq
                            simp only [setKey] at h
                            simp at h
                            exact ⟨fields, v, [], rfl, h.symm, Or.inr ⟨ofs, hjl, rfl⟩⟩
                    · simp at h
                  · simp at h
              · simp at h
          | null => simp [pure, Except.pure] at h
          | bool b => simp [pure, Except.pure] at h
          | int n => simp [pure, Except.pure] at h
          | float10 n => simp [pure, Except.pure] at h
          | str s => simp [pure, Except.pure] at h
  | null => simp [decodeSupportId, supportIdMsg, getKey, bind, Except.bind] at h
  | bool b => simp [decodeSupportId, supportIdMsg, getKey, bind, Except.bind] at h
  | int n => simp [decodeSupportId, supportIdMsg, getKey, bind, Except.bind] at h
  | float10 n => simp [decodeSupportId, supportIdMsg, getKey, bind, Except.bind] at h
  | str s => simp [decodeSupportId, supportIdMsg, getKey, bind, Except.bind] at h
  | arr l => simp [decodeSupportId, supportIdMsg, getKey, bind, Except.bind] at h

/-- `(String.mk l).data` unfolds to `l`. -/
lemma data_mk (l : List Char) : (String.mk l).data = l := rfl

/-- A list is a `isPrefixOf` any extension of itself. -/
lemma isPrefixOf_self_append (l1 l2 : List Char) : l1.isPrefixOf (l1 ++ l2) = true := by
  induction l1 with
  | nil => simp [List.isPrefixOf]
  | cons c t ih => simp [List.isPrefixOf, ih]

/-- Differing heads refute `isPrefixOf`. -/
lemma isPrefixOf_cons_of_ne (a b : Char) (l t : List Char) (h : a ≠ b) :
    (a :: l).isPrefixOf (b :: t) = false := by
  simp [List.isPrefixOf, h]

/-- `takeWhile` keeps a newline-free line whole. -/
lemma takeWhile_ne_self (l : List Char) (h : ∀ c ∈ l, c ≠ '\n') :
    l.takeWhile (fun c => c != '\n') = l := by
  rw [List.takeWhile_eq_self_iff]
  intro c hc
  simp [h c hc]

/-- A string with at least one character is truthy. -/
lemma truthy_str_mk_cons (c : Char) (l : List Char) :
    truthy (.str (String.mk (c :: l))) = true := by
  simp [truthy, bne_iff_ne, String.ext_iff]

/-- The greedy capture of `(.*)]` on `[<id>]`: everything up to the final
bracket, the opening bracket included (which is exactly what the source's
regex captures). -/
lemma greedyCapture_bracket (enc : List Char) (h3 : '\n' ∉ enc) :
    greedyCapture ('[' :: (enc ++ [']'])) = some ('[' :: enc) := by
  unfold greedyCapture
  rw [takeWhile_ne_self _ (by
    intro c hc
    simp at hc
    rcases hc with hc | hc | hc
    · subst hc; decide
    · intro he; exact h3 (he ▸ hc)
    · subst hc; decide)]
  simp [List.dropWhile]

/-- One-step unfolding of `supportIdSearch` on a nonempty string. -/
lemma supportIdSearch_cons (c : Char) (rest : List Char) :
    supportIdSearch (c :: rest) =
      if supportIdPat.isPrefixOf (c :: rest) then
        match greedyCapture ((c :: rest).drop supportIdPat.length) with
        | some cap => some cap
        | none => supportIdSearch rest
      else supportIdSearch rest := rfl

/-- When the message begins with the literal `Support ID: ` and the remainder
yields a capture, the regex search succeeds with that capture. -/
lemma supportIdSearch_head (X : List Char) (cap : List Char) (hg : greedyCapture X = some cap) :
    supportIdSearch (supportIdPat ++ X) = some cap := by
  have hsplit : supportIdPat ++ X = 'S' :: ("upport ID: ".data ++ X) := rfl
  rw [hsplit, supportIdSearch_cons, ← hsplit, isPrefixOf_self_append, if_pos rfl,
    List.drop_left, hg]

/-- `replaceSubAux` on the empty string, any fuel. -/
lemma replaceSubAux_nil (pat repl : List Char) (f : Nat) : replaceSubAux pat repl f [] = [] := by
  cases f <;> rfl

/-- One-step unfolding of `replaceSubAux` with positive fuel. -/
lemma replaceSubAux_cons (pat repl : List Char) (f : Nat) (c : Char) (rest : List Char) :
    replaceSubAux pat repl (f + 1) (c :: rest) =
      if pat ≠ [] ∧ pat.isPrefixOf (c :: rest) then
        repl ++ replaceSubAux pat repl f (rest.drop (pat.length - 1))
      else c :: replaceSubAux pat repl f rest := rfl

/-- `replaceSubAux` passes over a region free of the pattern's head
character. -/
lemma replaceSubAux_skip (p repl l1 l2 : List Char) (f : Nat) (h : '[' ∉ l1) :
    replaceSubAux ('[' :: p) repl (l1.length + f) (l1 ++ l2) =
      l1 ++ replaceSubAux ('[' :: p) repl f l2 := by
  induction l1 with
  | nil => simp
  | cons c t ih =>
      have hc : '[' ≠ c := by
        intro e
        exact h (by simp [← e])
      have hf : (c :: t : List Char).length + f = (t.length + f) + 1 := by
        simp [List.length_cons]
        omega
      rw [show (c :: t) ++ l2 = c :: (t ++ l2) from rfl, hf, replaceSubAux_cons]
      rw [if_neg (by simp [isPrefixOf_cons_of_ne '[' c (p) (t ++ l2) hc])]
      rw [ih (by intro hm; exact h (by simp [hm]))]
      rfl

/-- `replaceSubAux` replaces the pattern where it matches and moves past it. -/
lemma replaceSubAux_match (p repl tail : List Char) (f : Nat) :
    replaceSubAux ('[' :: p) repl (f + 1) (('[' :: p) ++ tail) =
      repl ++ replaceSubAux ('[' :: p) repl f tail := by
  rw [show ('[' :: p) ++ tail = '[' :: (p ++ tail) from rfl, replaceSubAux_cons]
  rw [if_pos (by
    constructor
    · simp
    · rw [show ('[' : Char) :: (p ++ tail) = ('[' :: p) ++ tail from rfl]
      exact isPrefixOf_self_append _ _)]
  simp [List.drop_left]

/-- `str.replace` on `Support ID: [<id>]` splices the replacement into the
bracketed position. -/
lemma replaceSub_support (enc dec : List Char) :
    replaceSub (supportIdPat ++ '[' :: (enc ++ [']'])) ('[' :: enc) dec =
      supportIdPat ++ (dec ++ [']']) := by
  unfold replaceSub
  have hlen : (supportIdPat ++ '[' :: (enc ++ [']'])).length
      = supportIdPat.length + ((enc.length + 1) + 1) := by
    simp [List.length_append, List.length_cons]
  rw [hlen]
  rw [replaceSubAux_skip enc dec supportIdPat ('[' :: (enc ++ [']'])) ((enc.length + 1) + 1)
    (by decide)]
  rw [show ('[' : Char) :: (enc ++ [']']) = ('[' :: enc) ++ [']'] from rfl]
  rw [replaceSubAux_match enc dec [']'] (enc.length + 1)]
  rw [replaceSubAux_cons ('[' :: enc) dec enc.length ']' []]
  rw [if_neg (by
    intro hcon
    have := hcon.2
    rw [isPrefixOf_cons_of_ne '[' ']' enc [] (by decide)] at this
    exact absurd this (by simp))]
  rw [replaceSubAux_nil]

/-- Percent-decoding steps over a non-`%` character. -/
lemma pctDecode_cons_ne (c : Char) (l : List Char) (h : c ≠ '%') :
    pctDecode (c :: l) = c :: pctDecode l := by
  match l with
  | [] => simp [pctDecode]
  | [d] => rfl
  | d :: e :: t => simp [pctDecode, h]

/-- `jGetOpt` agreeing with `getKey` on present keys. -/
lemma getKey_of_jGetOpt (j : JVal) (k : String) (v : JVal) (h : jGetOpt j k = some v) :
    getKey j k = .ok v := by
  cases j <;> simp [jGetOpt] at h
  simp [getKey, h]

/-- The scan loop of `api_base.py` lines 186-188 over well-shaped entries
returns whether some entry's `description2` contains the permission marker
(stopping at the first hit, as the Python loop raises there). -/
lemma permScanEntries_spec (l : List JVal) (hW : ∀ e ∈ l, entryOk e) :
    permScanEntries l = .ok (l.any hasPermMarker) := by
  induction l with
  | nil => simp [permScanEntries, pure, Except.pure]
  | cons e rest ih =>
      obtain ⟨d2, hd2, hcase⟩ := hW e (by simp)
      have hgk := getKey_of_jGetOpt e "description2" d2 hd2
      have ihr := ih (fun x hx => hW x (by simp [hx]))
      rcases hcase with hnull | ⟨s, hstr⟩
      · subst hnull
        simp [permScanEntries, hgk, bind, Except.bind, truthy, hasPermMarker, hd2, ihr]
      · subst hstr
        by_cases hs : s = ""
        · subst hs
          simp [permScanEntries, hgk, bind, Except.bind, truthy, hasPermMarker, hd2, ihr,
            listInfix, permMarker]
        · simp only [permScanEntries, hgk, bind, Except.bind, truthy]
          rw [if_pos (by simp [hs])]
          simp only [pyContains, bind, Except.bind, pure, Except.pure]
          by_cases hm : listInfix permMarker.data s.data
          · simp [hm, hasPermMarker, hd2]
          · simp [hm, hasPermMarker, hd2, ihr]

/-- Every `digitChar` is a digit. -/
lemma digitChar_isDigit (m : Nat) : (digitChar m).isDigit = true := by
  unfold digitChar
  split <;> decide

/-- `digitChar` inverts to its digit value. -/
lemma digitChar_toNat (m : Nat) (h : m < 10) : (digitChar m).toNat - 48 = m := by
  interval_cases m <;> decide

/-- A digit character differs from any non-digit character. -/
lemma isDigit_ne_of (c : Char) (h : c.isDigit = true) (d : Char) (hd : ¬ d.isDigit = true) :
    c ≠ d := fun e => hd (e ▸ h)

/-- The accumulator of `natDecimalAux` is a suffix. -/
lemma natDecimalAux_append (fuel n : Nat) (acc : List Char) (h : n ≤ fuel) :
    natDecimalAux fuel n acc = natDecimalAux fuel n [] ++ acc := by
  induction fuel generalizing n acc with
  | zero =>
      cases n with
      | zero => simp [natDecimalAux]
      | succ m => omega
  | succ f ih =>
      cases n with
      | zero => simp [natDecimalAux]
      | succ m =>
          have hle : (m + 1) / 10 ≤ f := by
            have := Nat.div_lt_self (Nat.succ_pos m) (by omega : (1 : Nat) < 10)
            omega
          show natDecimalAux f ((m + 1) / 10) (digitChar ((m + 1) % 10) :: acc)
            = natDecimalAux f ((m + 1) / 10) (digitChar ((m + 1) % 10) :: []) ++ acc
          rw [ih _ _ hle, ih _ (digitChar ((m + 1) % 10) :: []) hle]
          simp

/-- Folding the base-10 step over the decimal digits recovers the number. -/
lemma natDecimalAux_foldl (fuel n : Nat) (h : n ≤ fuel) :
    (natDecimalAux fuel n []).foldl (fun acc c => acc * 10 + (c.toNat - 48)) 0 = n := by
  induction fuel generalizing n with
  | zero =>
      cases n with
      | zero => simp [natDecimalAux]
      | succ m => omega
  | succ f ih =>
      cases n with
      | zero => simp [natDecimalAux]
      | succ m =>
          have hle : (m + 1) / 10 ≤ f := by
            have := Nat.div_lt_self (Nat.succ_pos m) (by omega : (1 : Nat) < 10)
            omega
          show ((natDecimalAux f ((m + 1) / 10) [digitChar ((m + 1) % 10)]).foldl
            (fun acc c => acc * 10 + (c.toNat - 48)) 0) = m + 1
          rw [natDecimalAux_append f _ _ hle, List.foldl_append, ih _ hle]
          simp [digitChar_toNat ((m + 1) % 10) (Nat.mod_lt _ (by omega))]
          have := Nat.div_add_mod (m + 1) 10
          omega

/-- `natDecimalAux` emits digits. -/
lemma natDecimalAux_digits (fuel n : Nat) (acc : List Char) (hacc : ∀ c ∈ acc, c.isDigit = true) :
    ∀ c ∈ natDecimalAux fuel n acc, c.isDigit = true := by
  induction fuel generalizing n acc with
  | zero =>
      cases n with
      | zero => simpa [natDecimalAux] using hacc
      | succ m => simpa [natDecimalAux] using hacc
  | succ f ih =>
      cases n with
      | zero => simpa [natDecimalAux] using hacc
      | succ m =>
          show ∀ c ∈ natDecimalAux f ((m + 1) / 10) (digitChar ((m + 1) % 10) :: acc),
            c.isDigit = true
          refine ih _ _ ?_
          intro c hc
          rcases List.mem_cons.mp hc with hc | hc
          · subst hc; exact digitChar_isDigit _
          · exact hacc c hc

/-- `natDecimal` emits digits. -/
lemma natDecimal_digits (n : Nat) : ∀ c ∈ natDecimal n, c.isDigit = true := by
  unfold natDecimal
  split
  · intro c hc; simp at hc; subst hc; decide
  · exact natDecimalAux_digits n n [] (by simp)

/-- A decimal rendering is never empty. -/
lemma natDecimal_ne_nil (n : Nat) : natDecimal n ≠ [] := by
  unfold natDecimal
  split
  · simp
  · rename_i hn
    cases n with
    | zero => simp at hn
    | succ m =>
        show natDecimalAux (m + 1) (m + 1) [] ≠ []
        have hle : (m + 1) / 10 ≤ m := by
          have := Nat.div_lt_self (Nat.succ_pos m) (by omega : (1 : Nat) < 10)
          omega
        show natDecimalAux m ((m + 1) / 10) [digitChar ((m + 1) % 10)] ≠ []
        rw [natDecimalAux_append m _ _ hle]
        simp

/-- Python `int(...)` parses the gateway decimal rendering of `@totalcount`
back to the number. -/
lemma pyInt_natDecimal (n : Nat) : pyInt (.str (String.mk (natDecimal n))) = .ok (n : Int) := by
  have hdig := natDecimal_digits n
  have hnn := natDecimal_ne_nil n
  have hfold : (natDecimal n).foldl (fun acc c => acc * 10 + (c.toNat - 48)) 0 = n := by
    unfold natDecimal
    split
    · rename_i hn; subst hn; decide
    · exact natDecimalAux_foldl n n (le_refl n)
  have hpd : parseDigits (natDecimal n) = .ok (Int.ofNat n) := by
    unfold parseDigits
    rw [if_pos ⟨hnn, by
      rw [List.all_eq_true]
      intro x hx
      exact hdig x hx⟩, hfold]
  simp only [pyInt, data_mk]
  have h1 : (natDecimal n).dropWhile (fun c => c == ' ') = natDecimal n := by
    cases hh : natDecimal n with
    | nil => rfl
    | cons c t =>
        rw [List.dropWhile_cons_of_neg]
        have := isDigit_ne_of c (hdig c (by simp [hh])) ' ' (by decide)
        simp [this]
  rw [h1]
  have h2 : (natDecimal n).reverse.dropWhile (fun c => c == ' ') = (natDecimal n).reverse := by
    cases hh : (natDecimal n).reverse with
    | nil => rfl
    | cons c t =>
        rw [List.dropWhile_cons_of_neg]
        have hcmem : c ∈ natDecimal n := by
          have : c ∈ (natDecimal n).reverse := by simp [hh]
          simpa using this
        have := isDigit_ne_of c (hdig c hcmem) ' ' (by decide)
        simp [this]
  rw [h2, List.reverse_reverse]
  split
  · rename_i heq
    exact absurd heq hnn
  · rename_i c rest heq
    have hc : c.isDigit = true := hdig c (by simp [heq])
    rw [if_neg (by
      have := isDigit_ne_of c hc '-' (by decide)
      simpa using this)]
    rw [if_neg (by
      have := isDigit_ne_of c hc '+' (by decide)
      simpa using this)]
    rw [← heq, hpd]
    rfl

/-- One `get_all_loop` iteration against the stable server fetches the slice
of the record set at the given offset. -/
lemma get_all_loop_stable_cons (d : String) (recs : List JVal) (p : Nat) (ts u : String)
    (dfm : String → Option JVal) (selv : JVal) (hdfm : dfm d = some selv)
    (off : Nat) (rest : List Int) (acc : List JVal) :
    get_all_loop (pagingApi d p) (stableServer d recs) ts u dfm none none none
        (((off : Nat) : Int) :: rest) acc =
      get_all_loop (pagingApi d p) (stableServer d recs) ts u dfm none none none rest
        (acc ++ (recs.drop off).take p) := by
  simp [get_all_loop, selectFieldValue, pagingApi, hdfm, pageQueryBody, dimJ,
    format_and_send_request, nextIterKey, issuedRequest, buildRequestBody, requestControl,
    stableServer, jGetOpt, jLookup, okEnvelope, postRequest, getKey, jEqStr, bind, Except.bind,
    pure, Except.pure, pyExtendList]

/-- The whole pagination loop against the stable server concatenates the
pages into the record set from the starting offset onward. -/
lemma get_all_loop_stable (d : String) (recs : List JVal) (p : Nat) (ts u : String)
    (dfm : String → Option JVal) (selv : JVal) (hdfm : dfm d = some selv) :
    ∀ (n s : Nat) (acc : List JVal), recs.length ≤ p * (s + n) →
    get_all_loop (pagingApi d p) (stableServer d recs) ts u dfm none none none
        ((List.range' s n).map (fun i => ((p * i : Nat) : Int))) acc
      = .ok (acc ++ recs.drop (p * s)) := by
  intro n
  induction n with
  | zero =>
      intro s acc h
      rw [List.drop_eq_nil_of_le (by simpa using h)]
      simp [get_all_loop, List.range', pure, Except.pure]
  | succ m ih =>
      intro s acc h
      rw [List.range'_succ, List.map_cons]
      rw [get_all_loop_stable_cons d recs p ts u dfm selv hdfm (p * s) _ acc]
      rw [ih (s + 1) (acc ++ (recs.drop (p * s)).take p)
        (by rw [show (s + 1) + m = s + (m + 1) from by omega]; exact h)]
      have hdd : recs.drop (p * (s + 1)) = (recs.drop (p * s)).drop p := by
        rw [List.drop_drop, show p * s + p = p * (s + 1) from by ring]
      rw [hdd, List.append_assoc, List.take_append_drop]

/-- `count()` against the stable server returns the record set's size. -/
lemma count_stable (d : String) (recs : List JVal) (p : Nat) (ts u : String) :
    count (pagingApi d p) (stableServer d recs) ts u = .ok (recs.length : Int) := by
  simp [count, format_and_send_request, nextIterKey, issuedRequest, buildRequestBody,
    requestControl, countQueryBody, dimJ, pagingApi, stableServer, jGetOpt, jLookup, okEnvelope,
    postRequest, getKey, jEqStr, bind, Except.bind, pure, Except.pure, pyInt_natDecimal]

/-- `range(0, count, pagesize)` yields exactly the offsets
`0, p, 2p, ...` — `ceil(count / pagesize)` of them. -/
lemma pyRange3_pages (len p : Nat) (hp : 0 < p) :
    pyRange3 0 (len : Int) ((p : Nat) : Int) =
      .ok ((List.range ((len + p - 1) / p)).map (fun i => ((p * i : Nat) : Int))) := by
  unfold pyRange3 pyRangeList
  rw [if_neg (by
    intro hcon
    rw [Int.natCast_eq_zero] at hcon
    omega)]
  rw [if_pos (by exact_mod_cast hp)]
  have hnum : ((len : Int) - 0 + (p : Int) - 1) = (((len + p - 1 : Nat) : Int)) := by
    push_cast [Nat.cast_sub (by omega : 1 ≤ len + p)]
    ring
  rw [hnum, ← Int.natCast_div, Int.toNat_natCast]
  have hfun : (fun i : Nat => (0 : Int) + (p : Int) * (i : Int))
      = (fun i : Nat => ((p * i : Nat) : Int)) := by
    funext i
    push_cast
    ring
  rw [hfun]

/-! ### Claims -/

/-- C1: the claim asserts that no combination of status code and decoded
response shape makes the classification step terminate with an error outside
the seven-variant taxonomy.  The code violates this: a 200 response whose
`control.status` is `'failure'` and whose error message has no
`Support ID: [...]` fragment makes `re.search` return `None`, so
`support_id.group(1)` on line 136 of `api_base.py` raises `AttributeError` —
an error outside the taxonomy.  (The guards the author wrote — line 136's
`if support_id.group(1):` and line 144's `message if message else None` —
show such messages were meant to be handled, so this is a slip in the code,
not in the spec.)  This theorem evaluates the classifier at the failing
input. -/
theorem c1_escape_attribute_error :
    postRequest 200 controlFailureNoSupportId = .error (.py "AttributeError") := by
  rfl

/-- C2: for transport status codes 400, 401, 403, 404, 498 and 500, `send`
raises exactly the corresponding taxonomy variant, whatever the decoded body;
any other status code that is not 200 raises the generic variant
(`SageIntacctSDKError`, the spec's `GenericSdkError`). -/
theorem c2_transport_status_mapping (parsed : JVal) :
    postRequest 400 parsed =
      .error (.sdk .wrongParamsError "Some of the parameters are wrong" parsed) ∧
    postRequest 401 parsed =
      .error (.sdk .invalidTokenError "Invalid token / Incorrect credentials" parsed) ∧
    postRequest 403 parsed =
      .error (.sdk .noPrivilegeError "Forbidden, the user has insufficient privilege" parsed) ∧
    postRequest 404 parsed =
      .error (.sdk .notFoundItemError "Not found item with ID" parsed) ∧
    postRequest 498 parsed =
      .error (.sdk .expiredTokenError "Expired token, try to refresh it" parsed) ∧
    postRequest 500 parsed =
      .error (.sdk .internalServerError "Internal server error" parsed) ∧
    (∀ code : Nat, code ≠ 200 → code ≠ 400 → code ≠ 401 → code ≠ 403 → code ≠ 404 →
      code ≠ 498 → code ≠ 500 →
      postRequest code parsed =
        .error (.sdk .genericSdkError ("Error: " ++ pyStr parsed) parsed)) := by
  refine ⟨rfl, rfl, rfl, rfl, rfl, rfl, ?_⟩
  intro code h200 h400 h401 h403 h404 h498 h500
  simp [postRequest, h200, h400, h401, h403, h404, h498, h500]

/-- Witness for C2 at a concrete body and the status codes 400 and 999. -/
theorem c2_transport_status_mapping_witness :
    postRequest 400 .null =
      .error (.sdk .wrongParamsError "Some of the parameters are wrong" .null) ∧
    postRequest 999 .null =
      .error (.sdk .genericSdkError ("Error: " ++ pyStr .null) .null) :=
  ⟨(c2_transport_status_mapping .null).1,
   (c2_transport_status_mapping .null).2.2.2.2.2.2 999 (by decide) (by decide) (by decide)
     (by decide) (by decide) (by decide) (by decide)⟩

/-- C8: `post` on a dimension in the fixed legacy set
`{CCTRANSACTION, EEXPENSES, EPPAYMENT}` wraps the payload under the configured
legacy verb name, on any other dimension under a `create` verb keyed by the
dimension; both paths delegate to the shared `format_and_send_request`/`send`
primitive. -/
theorem c8_post_legacy_vs_create (a : ApiBase) (d m : String) (transport : Transport)
    (ts uuidv : String) (data : JVal)
    (hd : a.dimension = some d) (hm : a.post_legacy_method = some m) :
    (d ∈ legacyDimensions →
      post a transport ts uuidv data =
        format_and_send_request a transport ts uuidv (.obj [(m, data)])) ∧
    (d ∉ legacyDimensions →
      post a transport ts uuidv data =
        format_and_send_request a transport ts uuidv
          (.obj [("create", .obj [(d, data)])])) := by
  constructor
  · intro hmem
    simp [post, hd, hmem, construct_post_legacy_payload, hm]
  · intro hmem
    simp [post, hd, hmem, construct_post_payload]

/-- Witness for C8: a legacy dimension uses the legacy verb, a non-legacy one
the `create` verb. -/
theorem c8_post_legacy_vs_create_witness :
    post (initApiBase (some "CCTRANSACTION") 2000 (some "record_cctransaction"))
        (fun _ _ => (200, okEnvelope .null)) "ts" "u" (.str "x") =
      format_and_send_request (initApiBase (some "CCTRANSACTION") 2000 (some "record_cctransaction"))
        (fun _ _ => (200, okEnvelope .null)) "ts" "u" (.obj [("record_cctransaction", .str "x")]) ∧
    post (initApiBase (some "ARINVOICE") 2000 (some "create_invoice"))
        (fun _ _ => (200, okEnvelope .null)) "ts" "u" (.str "x") =
      format_and_send_request (initApiBase (some "ARINVOICE") 2000 (some "create_invoice"))
        (fun _ _ => (200, okEnvelope .null)) "ts" "u"
        (.obj [("create", .obj [("ARINVOICE", .str "x")])]) :=
  ⟨(c8_post_legacy_vs_create _ _ _ _ _ _ _ rfl rfl).1 (by decide),
   (c8_post_legacy_vs_create _ _ _ _ _ _ _ rfl rfl).2 (by decide)⟩

/-- C9: each page request `get_all` issues is exactly
`pageQueryBody a sel field value offset` (visible in `get_all_loop`); its
`query` carries an `equalto` filter clause with the given field and value
exactly when both were supplied (and truthy), carries no filter clause when
`get_all` is called without them, and when no explicit field list is supplied
the select list is taken from the static per-dimension fields table. -/
theorem c9_filter_clause_and_default_fields (a : ApiBase) (sel selv : JVal) (f v : String)
    (d : String) (dfm : String → Option JVal) (off : Int)
    (hf : f ≠ "") (hv : v ≠ "") (hd : a.dimension = some d) (hdfm : dfm d = some selv) :
    ((jGetOpt (pageQueryBody a sel (some f) (some v) off) "query").bind
        (fun q => jGetOpt q "filter")
      = some (.obj [("equalto", .obj [("field", .str f), ("value", .str v)])])) ∧
    ((jGetOpt (pageQueryBody a sel none none off) "query").bind
        (fun q => jGetOpt q "filter") = none) ∧
    selectFieldValue a dfm none = .ok selv ∧
    (∀ fl : List String, fl ≠ [] →
      selectFieldValue a dfm (some fl) = .ok (.arr (fl.map JVal.str))) := by
  refine ⟨?_, ?_, ?_, ?_⟩
  · simp [pageQueryBody, jGetOpt, jLookup, hf, hv]
  · simp [pageQueryBody, jGetOpt, jLookup]
  · simp [selectFieldValue, hd, hdfm, pure, Except.pure]
  · intro fl hfl
    match fl with
    | f0 :: rest => simp [selectFieldValue, pure, Except.pure]

/-- C3 counterexample: on a failed login — the gateway answering with
`authentication.status == 'failure'` — `get_session_id` does NOT raise
`GenericSdkError` as claimed: the shared classifier `__post_request` raises
`InvalidTokenError` first (`api_base.py` lines 177-178), so the
`SageIntacctSDKError` branch on line 92 is never reached for this input. -/
theorem c3_counterexample_failed_login_variant :
    get_session_id (initApiBase none 2000 none)
      (fun _ _ => (200, loginAuthFailResponse
        (.str "XL03000009 Incorrect Intacct XML Partner ID or password.")))
      "ts" "u" "uid" "cid" "pw" =
    .error (.sdk .invalidTokenError "Invalid token / Incorrect credentials"
      (.str "XL03000009 Incorrect Intacct XML Partner ID or password.")) := by
  rfl

/-- C3 (amended): on a successful login, `get_session_id` captures
`result.data.api.endpoint` and `result.data.api.sessionid` into the engine
state and returns the session id, and every subsequent request is issued to
that endpoint with that session id in its authentication element.  A login
answered with `authentication.status == 'failure'` surfaces as
`InvalidTokenError` (raised by the shared classifier), not `GenericSdkError`;
the `GenericSdkError` carrying the gateway's `errormessage` is raised only
when the authentication status is neither `'success'` nor `'failure'` while
the result reports success. -/
theorem c3_login_session_capture (a : ApiBase) (ep sid : String) (em1 em2 : JVal) (s : String)
    (t1 t2 t3 : Transport) (ts uuidv userId companyId userPassword ts2 uuidv2 key : String)
    (payload : JVal)
    (h1 : t1 a.api_url (loginRequestBody a ts uuidv userId companyId userPassword) =
      (200, loginOkResponse ep sid))
    (h2 : t2 a.api_url (loginRequestBody a ts uuidv userId companyId userPassword) =
      (200, loginAuthFailResponse em1))
    (h3 : t3 a.api_url (loginRequestBody a ts uuidv userId companyId userPassword) =
      (200, loginOddStatusResponse s em2))
    (hs1 : s ≠ "success") (hs2 : s ≠ "failure") :
    get_session_id a t1 ts uuidv userId companyId userPassword =
      .ok ({ a with api_url := .str ep, session_id := .str sid }, .str sid) ∧
    issuedRequest { a with api_url := .str ep, session_id := .str sid } ts2 uuidv2 key payload =
      (.str ep,
       buildRequestBody { a with api_url := .str ep, session_id := .str sid } ts2 uuidv2 key payload) ∧
    ((jGetOpt (buildRequestBody { a with api_url := .str ep, session_id := .str sid }
          ts2 uuidv2 key payload) "request").bind
        (fun rq => (jGetOpt rq "operation").bind (fun op => jGetOpt op "authentication"))
      = some (.obj [("sessionid", .str sid)])) ∧
    get_session_id a t2 ts uuidv userId companyId userPassword =
      .error (.sdk .invalidTokenError "Invalid token / Incorrect credentials" em1) ∧
    get_session_id a t3 ts uuidv userId companyId userPassword =
      .error (.sdk .genericSdkError ("Error: " ++ pyStr em2) em2) := by
  refine ⟨?_, rfl, ?_, ?_, ?_⟩
  · simp [get_session_id, h1, loginOkResponse, okEnvelope, postRequest, getKey, jLookup,
      jEqStr, pure, Except.pure, bind, Except.bind]
  · simp [buildRequestBody, jGetOpt, jLookup]
  · simp [get_session_id, h2, loginAuthFailResponse, postRequest, getKey, jLookup, jEqStr,
      bind, Except.bind, pure, Except.pure]
  · simp [get_session_id, h3, loginOddStatusResponse, postRequest, getKey, jLookup, jEqStr,
      hs1, hs2, pure, Except.pure, bind, Except.bind]

/-- C4 counterexample: the claim quantifies over every 200 control-failure
response, but one whose single error object has no `description2` key makes
the Support-ID decoding raise `KeyError` (line 133 of `api_base.py`), so
`send` does not raise `WrongParamsError` there. -/
theorem c4_counterexample_key_error :
    postRequest 200 c4CounterexampleBody = .error (.py "KeyError") := by rfl

/-- C4 (amended): for every 200 response whose `control.status` is
`'failure'` and whose `errormessage` survives Support-ID decoding, `send`
raises `WrongParamsError` carrying the decoded payload, and that payload's
`error` field is a sequence of length at least 1 — even when the gateway
returned a single error object (the dict case of `__support_id_msg`). -/
theorem c4_control_failure_normalized (em ex : JVal) (h : decodeSupportId em = .ok ex) :
    postRequest 200 (controlFailureEnvelope em) =
      .error (.sdk .wrongParamsError "Some of the parameters are wrong" ex) ∧
    ∃ l, getKey ex "error" = .ok (.arr l) ∧ 1 ≤ l.length := by
  constructor
  · simp [postRequest, controlFailureEnvelope, getKey, jLookup, jEqStr, bind, Except.bind,
      pure, Except.pure, h]
  · obtain ⟨fields, nh, rest, hem, hex, hdisj⟩ := decodeSupportId_ok_shape em ex h
    exact ⟨nh :: rest, by simp [hex, getKey, jLookup_assocSet_self], by simp⟩

/-- C5 counterexample: the claim quantifies over every result-failure
response, but a permission-denied message without a `Support ID: [...]`
fragment crashes Support-ID decoding (`AttributeError`, line 136) before the
scan ever runs, so no `InvalidTokenError` is raised for it. -/
theorem c5_counterexample_attribute_error :
    postRequest 200 c5CounterexampleBody = .error (.py "AttributeError") := by rfl

/-- C5 (amended): for every 200 response with control success and
authentication success whose `operation.result.status` is `'failure'` and
whose errormessage survives Support-ID decoding, with every normalized error
entry exposing a `description2` (string or None), `send` scans the entries:
if some entry's `description2` contains "You do not have permission for API"
it raises `InvalidTokenError` (stopping at the first such entry), otherwise
it raises `WrongParamsError` whose message names the failing function from
`result.function`. -/
theorem c5_result_failure_permission_scan (em ex : JVal) (l : List JVal) (fn : JVal)
    (hde : decodeSupportId em = .ok ex)
    (herr : getKey ex "error" = .ok (.arr l))
    (hW : ∀ e ∈ l, entryOk e) :
    postRequest 200 (resultFailureEnvelope fn em) =
      (if l.any hasPermMarker then
        .error (.sdk .invalidTokenError "The user has insufficient privilege" ex)
       else
        .error (.sdk .wrongParamsError ("Error during " ++ pyStr fn) ex)) := by
  have hscan : permScan (.arr l) = .ok (l.any hasPermMarker) := by
    simp [permScan, permScanEntries_spec l hW]
  obtain ⟨fields, nh, rest, hem, hex, _⟩ := decodeSupportId_ok_shape em ex hde
  rw [hex] at herr
  simp only [getKey, jLookup_assocSet_self] at herr
  have hl : l = nh :: rest := by
    have := herr
    injection this with h1
    injection h1 with h2
    exact h2.symm
  subst hl
  subst hex
  by_cases hany : (nh :: rest).any hasPermMarker
  · simp [postRequest, resultFailureEnvelope, getKey, jLookup, jEqStr, bind, Except.bind,
      pure, Except.pure, hde, jLookup_assocSet_self, hscan, hany]
  · simp [postRequest, resultFailureEnvelope, getKey, jLookup, jEqStr, bind, Except.bind,
      pure, Except.pure, hde, jLookup_assocSet_self, hscan, hany]

/-- Witness for C5: a permission-denied error (with a Support-ID fragment)
raises `InvalidTokenError`, not `WrongParamsError`. -/
theorem c5_result_failure_permission_scan_witness :
    postRequest 200 (resultFailureEnvelope (.str "readByQuery")
        (.obj [("error", .obj [("description2",
          .str "You do not have permission for API query. Support ID: [q%2Br]")])])) =
      .error (.sdk .invalidTokenError "The user has insufficient privilege"
        (.obj [("error", .arr [.obj [("description2",
          .str "You do not have permission for API query. Support ID: [q+r]")]])])) := by
  have h := c5_result_failure_permission_scan
    (.obj [("error", .obj [("description2",
      .str "You do not have permission for API query. Support ID: [q%2Br]")])])
    (.obj [("error", .arr [.obj [("description2",
      .str "You do not have permission for API query. Support ID: [q+r]")]])])
    [.obj [("description2", .str "You do not have permission for API query. Support ID: [q+r]")]]
    (.str "readByQuery") rfl rfl
    (by
      intro e he
      simp at he
      subst he
      exact ⟨.str "You do not have permission for API query. Support ID: [q+r]", rfl,
        Or.inr ⟨_, rfl⟩⟩)
  rw [h]
  rw [if_pos (by decide)]

/-- Witness for C4: a single error dict is normalized into a one-element
sequence inside the raised `WrongParamsError`. -/
theorem c4_control_failure_normalized_witness :
    postRequest 200 (controlFailureEnvelope c4WitnessErrormessage) =
      .error (.sdk .wrongParamsError "Some of the parameters are wrong" c4WitnessDecoded) ∧
    getKey c4WitnessDecoded "error" =
      .ok (.arr [.obj [("description2", .str "Payload error. Support ID: [kxi8+ab]")]]) :=
  ⟨(c4_control_failure_normalized c4WitnessErrormessage c4WitnessDecoded rfl).1, rfl⟩

/-- C10: when the gateway returns more than one error object, the Support-ID
decoding/normalization step rewrites only the first element; every element
after the first appears in the output exactly as it was in the input (so any
Support ID it contains is still percent-encoded). -/
theorem c10_tail_errors_passed_through (fields : List (String × JVal)) (e0 : JVal)
    (rest : List JVal) (ex : JVal)
    (hl : jLookup "error" fields = some (.arr (e0 :: rest)))
    (h : decodeSupportId (.obj fields) = .ok ex) :
    tailOfErrors ex = some rest := by
  obtain ⟨fields2, nh, rest2, hem, hex, hdisj⟩ := decodeSupportId_ok_shape _ _ h
  have hf : fields2 = fields := by
    cases hem
    rfl
  subst hf
  rcases hdisj with ⟨oh, hol⟩ | ⟨ofl, hol, _⟩
  · rw [hl] at hol
    have hrest : rest2 = rest := by
      cases hol
      rfl
    subst hrest
    simp [tailOfErrors, hex, jGetOpt, jLookup_assocSet_self]
  · rw [hl] at hol
    cases hol

/-- C7: a `description2` of the form `Support ID: [<percent-encoded id>]`
(for any newline-free id) is rewritten by the decoding step: the captured text
— which the greedy regex makes `[<id>` — is replaced throughout the message by
its percent-decoded form, so the surfaced `description2` is the same message
with the id decoded in place. -/
theorem c7_support_id_decoding (enc : List Char) (h3 : '\n' ∉ enc) :
    decodeSupportId (.obj [("error", .obj [("description2",
        .str (String.mk (supportIdPat ++ '[' :: (enc ++ [']'])))) ])]) =
      .ok (.obj [("error", .arr [.obj [("description2",
        .str (String.mk (supportIdPat ++ '[' :: (pctDecode enc ++ [']'])))) ]])]) := by
  have hsearch : supportIdSearch (String.mk (supportIdPat ++ '[' :: (enc ++ [']']))).data
      = some ('[' :: enc) := by
    rw [data_mk]
    exact supportIdSearch_head _ _ (greedyCapture_bracket enc h3)
  have hdec : pctDecode ('[' :: enc) = '[' :: pctDecode enc :=
    pctDecode_cons_ne '[' enc (by decide)
  have hrepl : replaceSub (supportIdPat ++ '[' :: (enc ++ [']'])) ('[' :: enc)
      ('[' :: pctDecode enc) = supportIdPat ++ '[' :: (pctDecode enc ++ [']']) := by
    rw [replaceSub_support]
    simp
  have htr1 : truthy (.str (String.mk (supportIdPat ++ '[' :: (enc ++ [']'])))) = true := by
    rw [show supportIdPat ++ '[' :: (enc ++ [']'])
        = 'S' :: ("upport ID: ".data ++ '[' :: (enc ++ [']'])) from rfl]
    exact truthy_str_mk_cons _ _
  have hne1 : ¬ (String.mk (supportIdPat ++ '[' :: (enc ++ [']'])) = "") := by
    rw [show supportIdPat ++ '[' :: (enc ++ [']'])
        = 'S' :: ("upport ID: ".data ++ '[' :: (enc ++ [']'])) from rfl]
    simp [String.ext_iff]
  have hne2 : ¬ (String.mk (supportIdPat ++ '[' :: (pctDecode enc ++ [']'])) = "") := by
    rw [show supportIdPat ++ '[' :: (pctDecode enc ++ [']'])
        = 'S' :: ("upport ID: ".data ++ '[' :: (pctDecode enc ++ [']'])) from rfl]
    simp [String.ext_iff]
  simp [decodeSupportId, supportIdMsg, getKey, jLookup, setKey, assocSet, bind, Except.bind,
    pure, Except.pure, truthy, htr1, hsearch, hdec, hrepl, hne1, hne2]

/-- Witness for C7 at the spec's example id `abc%2Bdef`: the surfaced message
contains `abc+def` and no longer contains the percent-encoded form. -/
theorem c7_support_id_decoding_witness :
    decodeSupportId (.obj [("error", .obj [("description2",
        .str "Support ID: [abc%2Bdef]")])]) =
      .ok (.obj [("error", .arr [.obj [("description2",
        .str "Support ID: [abc+def]")]])]) ∧
    listInfix "abc+def".data "Support ID: [abc+def]".data = true ∧
    listInfix "abc%2Bdef".data "Support ID: [abc+def]".data = false := by
  refine ⟨?_, by decide, by decide⟩
  exact c7_support_id_decoding "abc%2Bdef".data (by decide)

/-- Witness for C10: of two errors each holding an encoded Support ID, the
second passes through with its `%2B` still encoded. -/
theorem c10_tail_errors_passed_through_witness :
    tailOfErrors c10Decoded = some [c10SecondError] ∧
    listInfix "%2B".data "Another failure. Support ID: [xyz%2Babc]".data = true :=
  ⟨c10_tail_errors_passed_through c10Fields
      (.obj [("description2", .str "First failure. Support ID: [abc%2Bdef]")])
      [c10SecondError] c10Decoded rfl rfl,
   by decide⟩

/-- Witness for C3 at concrete credentials, endpoint, session id and canned
gateway behaviours. -/
theorem c3_login_session_capture_witness :
    get_session_id (initApiBase none 2000 none)
        (fun _ _ => (200, loginOkResponse "https://api-p02.intacct.com/ia/xml/xmlgw.phtml" "SID42"))
        "ts" "u" "uid" "cid" "pw" =
      .ok ({ initApiBase none 2000 none with
              api_url := .str "https://api-p02.intacct.com/ia/xml/xmlgw.phtml",
              session_id := .str "SID42" }, .str "SID42") ∧
    get_session_id (initApiBase none 2000 none)
        (fun _ _ => (200, loginOddStatusResponse "pending" (.str "odd")))
        "ts" "u" "uid" "cid" "pw" =
      .error (.sdk .genericSdkError ("Error: " ++ pyStr (.str "odd")) (.str "odd")) := by
  have h := c3_login_session_capture (initApiBase none 2000 none)
    "https://api-p02.intacct.com/ia/xml/xmlgw.phtml" "SID42" (.str "bad") (.str "odd") "pending"
    (fun _ _ => (200, loginOkResponse "https://api-p02.intacct.com/ia/xml/xmlgw.phtml" "SID42"))
    (fun _ _ => (200, loginAuthFailResponse (.str "bad")))
    (fun _ _ => (200, loginOddStatusResponse "pending" (.str "odd")))
    "ts" "u" "uid" "cid" "pw" "ts2" "u2" "get" (.str "42")
    rfl rfl rfl (by decide) (by decide)
  exact ⟨h.1, h.2.2.2.2⟩

/-- Witness for C9 at a concrete engine state, filter and fields table. -/
theorem c9_filter_clause_and_default_fields_witness :
    ((jGetOpt (pageQueryBody (initApiBase (some "ARINVOICE") 2000 none) (.arr [.str "RECORDNO"])
          (some "STATUS") (some "submitted") 0) "query").bind (fun q => jGetOpt q "filter")
      = some (.obj [("equalto", .obj [("field", .str "STATUS"), ("value", .str "submitted")])])) ∧
    ((jGetOpt (pageQueryBody (initApiBase (some "ARINVOICE") 2000 none) (.arr [.str "RECORDNO"])
          none none 0) "query").bind (fun q => jGetOpt q "filter") = none) ∧
    selectFieldValue (initApiBase (some "ARINVOICE") 2000 none)
        (fun x => if x = "ARINVOICE" then some (.arr [.str "RECORDNO", .str "CUSTOMERID"]) else none)
        none = .ok (.arr [.str "RECORDNO", .str "CUSTOMERID"]) := by
  have h := c9_filter_clause_and_default_fields (initApiBase (some "ARINVOICE") 2000 none)
    (.arr [.str "RECORDNO"]) (.arr [.str "RECORDNO", .str "CUSTOMERID"])
    "STATUS" "submitted" "ARINVOICE"
    (fun x => if x = "ARINVOICE" then some (.arr [.str "RECORDNO", .str "CUSTOMERID"]) else none)
    0 (by decide) (by decide) rfl (by simp)
  exact ⟨h.1, h.2.1, h.2.2.1⟩

/-- C6: against a stable remote record set, `count()` returns
`result.data.@totalcount` parsed as an integer (the set's size, served from a
`RECORDNO`/pagesize-1 query); `get_all` issues exactly
`ceil(count / pagesize)` paginated requests at offsets `0, pagesize,
2*pagesize, ...` (the value of `range(0, count, pagesize)`), and returns the
concatenation of the pages' record lists in request order — which is the whole
record set, so its length equals the count; with zero records no page request
is issued and the result is empty (the `recs = []` instance). -/
theorem c6_count_and_get_all (d : String) (recs : List JVal) (p : Nat) (hp : 0 < p)
    (dfm : String → Option JVal) (selv : JVal) (hdfm : dfm d = some selv) (ts u : String) :
    count (pagingApi d p) (stableServer d recs) ts u = .ok (recs.length : Int) ∧
    pyRange3 0 (recs.length : Int) (pagingApi d p).pagesize =
      .ok ((List.range ((recs.length + p - 1) / p)).map (fun i => ((p * i : Nat) : Int))) ∧
    get_all (pagingApi d p) (stableServer d recs) ts u dfm none none none = .ok recs := by
  have hrange := pyRange3_pages recs.length p hp
  have hceil : recs.length ≤ p * (0 + (recs.length + p - 1) / p) := by
    rw [Nat.zero_add]
    have hdm := Nat.div_add_mod (recs.length + p - 1) p
    have hmlt : (recs.length + p - 1) % p < p := Nat.mod_lt _ hp
    omega
  refine ⟨count_stable d recs p ts u, hrange, ?_⟩
  unfold get_all
  rw [count_stable d recs p ts u]
  show (pyRange3 0 (recs.length : Int) (pagingApi d p).pagesize).bind _ = _
  rw [show (pagingApi d p).pagesize = ((p : Nat) : Int) from rfl, hrange]
  show get_all_loop _ _ _ _ _ _ _ _ _ [] = _
  rw [List.range_eq_range']
  rw [get_all_loop_stable d recs p ts u dfm selv hdfm ((recs.length + p - 1) / p) 0 [] hceil]
  simp

/-- Witness for C6: three records at page size 2 — count 3, offsets `[0, 2]`
(two page requests, `ceil(3/2)`), and the concatenated result is the record
set. -/
theorem c6_count_and_get_all_witness :
    count (pagingApi "ARINVOICE" 2)
        (stableServer "ARINVOICE" [.str "r1", .str "r2", .str "r3"]) "ts" "u" = .ok 3 ∧
    pyRange3 0 3 (pagingApi "ARINVOICE" 2).pagesize = .ok [0, 2] ∧
    get_all (pagingApi "ARINVOICE" 2)
        (stableServer "ARINVOICE" [.str "r1", .str "r2", .str "r3"]) "ts" "u" c6Dfm
        none none none = .ok [.str "r1", .str "r2", .str "r3"] := by
  have h := c6_count_and_get_all "ARINVOICE" [.str "r1", .str "r2", .str "r3"] 2 (by decide)
    c6Dfm (.arr [.str "RECORDNO"]) rfl "ts" "u"
  refine ⟨h.1, ?_, h.2.2⟩
  have h2 := h.2.1
  simpa using h2

end SageIntacct
